import Mathlib

/-!
Verification of the Real-Time Forum & Moderation Engine (Real-Futbol).

The definitions below are a shallow embedding of the JavaScript source:
* `src/views/moderation.js` — role resolution, mute records, moderator registry;
* `src/views/forum.js` — message snapshot processing, reaction aggregation,
  the toggle-reaction operation, reply threading, message sending and the
  live-subscription lifecycle.

The Firestore document store is modelled by association lists keyed by
document id.  Fallible store reads are modelled by an `Except` parameter,
fallible writes by explicit success flags.  Epoch-millisecond clocks are `Nat`.
-/

namespace RealFutbol

/-- Roles resolved by `getUserRole` in `moderation.js`. -/
inductive Role where
  | developer
  | moderator
  | user
deriving DecidableEq, Repr

/-- Hardcoded developer uid (`DEVELOPER_UID` in `moderation.js`). -/
def DEVELOPER_UID : String := "SvMj82K5gNXub6StrHjz4JVpRB83"

/-- Embedding of `getUserRole(uid)`.  The `moderators/{uid}` point read may
fail; its outcome is the `lookup` parameter (`Except.ok b` with `b` the
document-exists flag, `Except.error ()` when the read throws, in which case
the `catch` block falls through to the final `return 'user'`). -/
def getUserRole (uid : String) (lookup : Except Unit Bool) : Role :=
  if uid = DEVELOPER_UID then Role.developer
  else
    match lookup with
    | Except.ok true => Role.moderator
    | Except.ok false => Role.user
    | Except.error _ => Role.user

/-- Document of the `user_profiles` collection. -/
structure UserProfile where
  username : String
  email : String
  role : String
  commentCount : Nat
deriving DecidableEq, Repr

/-- Document of the `moderators` collection. -/
structure ModeratorEntry where
  uid : String
  username : String
  addedBy : String
  addedAt : Nat
deriving DecidableEq, Repr

/-- Document of the `muted_users` collection. -/
structure MuteRecord where
  uid : String
  username : String
  mutedAt : Nat
  expiresAt : Nat
  durationMinutes : Nat
deriving DecidableEq, Repr

/-- The slice of the document store touched by the moderation module. -/
structure ModStore where
  user_profiles : List (String × UserProfile)
  moderators : List (String × ModeratorEntry)
  muted_users : List (String × MuteRecord)
deriving DecidableEq, Repr

/-- Overwriting point write (`setDoc`): replaces the document with key `k`,
or appends it when absent. -/
def setKey {α : Type} (k : String) (v : α) : List (String × α) → List (String × α)
  | [] => [(k, v)]
  | (k2, v2) :: rest => if k2 = k then (k, v) :: rest else (k2, v2) :: setKey k v rest

/-- Point delete (`deleteDoc`): removes the document with key `k`. -/
def eraseKey {α : Type} (k : String) : List (String × α) → List (String × α)
  | [] => []
  | (k2, v2) :: rest => if k2 = k then rest else (k2, v2) :: eraseKey k rest

/-- Character-level model of `String.trim` (JavaScript `trim()`): drop
whitespace from both ends. -/
def strTrim (s : String) : String :=
  ⟨((s.data.dropWhile Char.isWhitespace).reverse.dropWhile Char.isWhitespace).reverse⟩

/-- Character-level model of `toLowerCase()`. -/
def strToLower (s : String) : String :=
  ⟨s.data.map Char.toLower⟩

/-- Character-level model of `substring(0, n)`. -/
def strTake (s : String) (n : Nat) : String :=
  ⟨s.data.take n⟩

/-- Embedding of `searchUserByUsername(username)`: trims and lowercases, then
scans the `user_profiles` collection for the first profile whose (truthy)
username matches case-insensitively.  Returns the uid together with the
profile data. -/
def searchUserByUsername (username : String) (st : ModStore) : Option (String × UserProfile) :=
  if strTrim username = "" then none
  else
    let uname := strToLower (strTrim username)
    st.user_profiles.find? (fun p => p.2.username != "" && strToLower p.2.username == uname)

/-- Embedding of `muteUser(username, durationMinutes)`.  Note the source
function takes no acting user and performs no role check.  Returns the
success flag together with the updated store. -/
def muteUser (username : String) (durationMinutes : Nat) (now : Nat) (st : ModStore) :
    Bool × ModStore :=
  match searchUserByUsername username st with
  | none => (false, st)
  | some (uid, prof) =>
    if uid = DEVELOPER_UID then (false, st)
    else
      let record : MuteRecord :=
        { uid := uid
          username := prof.username
          mutedAt := now
          expiresAt := now + durationMinutes * 60000
          durationMinutes := durationMinutes }
      (true, { st with muted_users := setKey uid record st.muted_users })

/-- Embedding of `isUserMuted(uid)`.  Returns the mute data (`none` meaning
not muted) together with the possibly purged store.  The source guard is
`data.expiresAt && data.expiresAt < Date.now()`; the JavaScript truthiness
test on the number is modelled as `≠ 0`. -/
def isUserMuted (uid : String) (now : Nat) (st : ModStore) : Option MuteRecord × ModStore :=
  match st.muted_users.lookup uid with
  | none => (none, st)
  | some data =>
    if data.expiresAt ≠ 0 ∧ data.expiresAt < now then
      (none, { st with muted_users := eraseKey uid st.muted_users })
    else
      (some data, st)

/-- Embedding of `removeModerator(uid)` (the confirm dialog accepted).  The
three store operations may each fail: `readOk` is the `user_profiles` point
read, `profileOk` the role-resetting `setDoc`, `deleteOk` the registry
`deleteDoc`.  A thrown operation aborts the remaining steps and the `catch`
block surfaces an error message (modelled as `some msg`); the store reflects
the writes performed before the failure. -/
def removeModerator (uid : String) (st : ModStore)
    (readOk profileOk deleteOk : Bool) : Option String × ModStore :=
  if readOk then
    match st.user_profiles.lookup uid with
    | some userData =>
      if profileOk then
        let st1 := { st with user_profiles := setKey uid { userData with role := "user" } st.user_profiles }
        if deleteOk then (none, { st1 with moderators := eraseKey uid st1.moderators })
        else (some "Error al quitar moderador", st1)
      else (some "Error al quitar moderador", st)
    | none =>
      if deleteOk then (none, { st with moderators := eraseKey uid st.moderators })
      else (some "Error al quitar moderador", st)
  else (some "Error al quitar moderador", st)

/-- Quoted-reply reference: the shape of the process-local `replyingTo` slot
and of the `replyTo` field copied onto an outgoing message. -/
structure ReplyRef where
  messageId : String
  username : String
  text : String
deriving DecidableEq, Repr

/-- Document of the `forum_messages` collection as seen by a snapshot.
Messages created by `sendMessage` carry no `deleted` field, which the
`!data.deleted` filter treats the same as `false`. -/
structure MessageDoc where
  id : String
  context : String
  userId : String
  user : String
  userRole : String
  text : String
  timestamp : Nat
  userEmail : String
  replyTo : Option ReplyRef
  deleted : Bool
  deletedBy : Option String
  deletedAt : Option Nat
deriving DecidableEq, Repr

/-- Comparator of the client-side sort in the `initForum` snapshot handler:
`(a, b) => a.timestamp - b.timestamp` orders by `timestamp` ascending. -/
def tsLE (a b : MessageDoc) : Prop := a.timestamp ≤ b.timestamp

instance : DecidableRel tsLE := fun a b => inferInstanceAs (Decidable (a.timestamp ≤ b.timestamp))

instance : IsTotal MessageDoc tsLE := ⟨fun a b => Nat.le_total a.timestamp b.timestamp⟩

instance : IsTrans MessageDoc tsLE := ⟨fun _ _ _ => Nat.le_trans⟩

/-- Snapshot processing of the `initForum` message listener: drop documents
with `deleted` set, then client-side sort by `timestamp` ascending
(`messagesData.sort((a, b) => a.timestamp - b.timestamp)`; the engine only
promises some ascending order, so the sort is modelled by insertion sort
over the same comparator). -/
def processSnapshot (docs : List MessageDoc) : List MessageDoc :=
  List.insertionSort tsLE (docs.filter (fun d => !d.deleted))

/-- Document of the `message_reactions` collection. -/
structure Reaction where
  messageId : String
  userId : String
  type : String
  timestamp : Nat
deriving DecidableEq, Repr

/-- Core of `toggleReaction` once the viewer is authenticated, acting on the
`message_reactions` collection (in store order).  The query
`messageId == mid && userId == uid` selects the matching documents and
`docs[0]` is the first of them: if its `type` equals the requested one the
document is deleted, otherwise it is updated in place; when no document
matches, a new one is added. -/
def toggleReactionDocs (mid uid ty : String) (now : Nat) : List Reaction → List Reaction
  | [] => [⟨mid, uid, ty, now⟩]
  | r :: rest =>
    if r.messageId = mid ∧ r.userId = uid then
      if r.type = ty then rest
      else { r with type := ty } :: rest
    else r :: toggleReactionDocs mid uid ty now rest

/-- Embedding of `toggleReaction(messageId, type)`: with no authenticated
viewer the function alerts and returns without touching the store. -/
def toggleReaction (viewer : Option String) (mid ty : String) (now : Nat)
    (docs : List Reaction) : List Reaction :=
  match viewer with
  | none => docs
  | some uid => toggleReactionDocs mid uid ty now docs

/-- Reaction documents of a single `(messageId, userId)` pair, in store
order (the result set of the `toggleReaction` query). -/
def pairDocs (mid uid : String) (docs : List Reaction) : List Reaction :=
  docs.filter (fun r => r.messageId == mid && r.userId == uid)

/-- Iterated toggling of the same reaction by the same viewer. -/
def toggles (mid uid ty : String) (now : Nat) : Nat → List Reaction → List Reaction
  | 0, docs => docs
  | n + 1, docs => toggleReactionDocs mid uid ty now (toggles mid uid ty now n docs)

/-- One element of an arbitrary interleaving of `toggleReaction` calls:
viewer, message id, type, timestamp. -/
def applyToggleCalls (calls : List (Option String × String × String × Nat))
    (docs : List Reaction) : List Reaction :=
  calls.foldl (fun acc c => toggleReaction c.1 c.2.1 c.2.2.1 c.2.2.2 acc) docs

/-- Message ids watched by the reaction listener: `messageIds.slice(0, 10)`
(Firestore caps the `in` filter at 10 values). -/
def watchedIds (messageIds : List String) : List String :=
  messageIds.take 10

/-- The reaction documents the store delivers to the reaction listener: those
whose `messageId` passes the equality-membership filter over the watched
ids. -/
def deliveredReactions (reactions : List Reaction) (messageIds : List String) : List Reaction :=
  reactions.filter (fun r => (watchedIds messageIds).contains r.messageId)

/-- Per-message reaction aggregate (`messageReactions[msgId]`), defaulting to
`{likes: 0, dislikes: 0, userLike: false, userDislike: false}`. -/
structure ReactionAgg where
  likes : Nat
  dislikes : Nat
  userLike : Bool
  userDislike : Bool
deriving DecidableEq, Repr

/-- Default aggregate for a message id with no reactions. -/
def emptyAgg : ReactionAgg := ⟨0, 0, false, false⟩

/-- One step of the reaction-snapshot loop, restricted to the aggregate of
one message id: a `like` document bumps `likes` (and sets `userLike` when it
belongs to the viewer), a `dislike` document bumps `dislikes` likewise; any
other `type` is ignored by the `if / else if` chain. -/
def applyReactionDoc (viewer : Option String) (mid : String)
    (a : ReactionAgg) (r : Reaction) : ReactionAgg :=
  if r.messageId == mid then
    if r.type == "like" then
      { a with likes := a.likes + 1, userLike := a.userLike || (some r.userId == viewer) }
    else if r.type == "dislike" then
      { a with dislikes := a.dislikes + 1, userDislike := a.userDislike || (some r.userId == viewer) }
    else a
  else a

/-- Aggregate the reaction listener derives for message id `mid` from a
delivered snapshot (counters reset to zero, then one pass over the
documents). -/
def aggFor (viewer : Option String) (snapshot : List Reaction) (mid : String) : ReactionAgg :=
  snapshot.foldl (applyReactionDoc viewer mid) emptyAgg

/-- Embedding of `startReply(messageId, username, text)`: overwrites the
single `replyingTo` slot, truncating the quoted text to 100 characters
(`text.substring(0, 100)`). -/
def startReply (mid username text : String) (_ : Option ReplyRef) : Option ReplyRef :=
  some ⟨mid, username, strTake text 100⟩

/-- Embedding of `cancelReply()`: clears the slot unconditionally. -/
def cancelReply (_ : Option ReplyRef) : Option ReplyRef := none

/-- Identity-provider user as consumed by `sendMessage`. -/
structure AuthUser where
  uid : String
  email : String
deriving DecidableEq, Repr

/-- `messageData` document built by `sendMessage` (before the store assigns
an id). -/
structure OutgoingMessage where
  context : String
  userId : String
  user : String
  userRole : String
  text : String
  timestamp : Nat
  userEmail : String
  replyTo : Option ReplyRef
deriving DecidableEq, Repr

/-- Result of a `sendMessage` call: the document written (if any), the
`replyingTo` slot afterwards, and whether `incrementUserCommentCount` ran. -/
structure SendResult where
  written : Option OutgoingMessage
  replying : Option ReplyRef
  commentIncremented : Bool
deriving DecidableEq, Repr

/-- Embedding of `sendMessage`.  Guards in source order: no authenticated
user, then no profile / falsy `profile.username`, then empty trimmed text —
each returns before any write.  On the success path the message (with
`replyTo` copied from the pending slot when present) is added, the comment
counter incremented, and a pending reply cancelled. -/
def sendMessage (user : Option AuthUser) (profile : Option UserProfile)
    (userRole : String) (ctx : String) (rawText : String) (now : Nat)
    (replyingTo : Option ReplyRef) : SendResult :=
  match user with
  | none => ⟨none, replyingTo, false⟩
  | some u =>
    match profile with
    | none => ⟨none, replyingTo, false⟩
    | some p =>
      if p.username = "" then ⟨none, replyingTo, false⟩
      else
        let text := strTrim rawText
        if text = "" then ⟨none, replyingTo, false⟩
        else
          let msg : OutgoingMessage :=
            { context := ctx
              userId := u.uid
              user := p.username
              userRole := userRole
              text := text
              timestamp := now
              userEmail := u.email
              replyTo := replyingTo.map (fun r => ⟨r.messageId, r.username, r.text⟩) }
          ⟨some msg, if replyingTo.isSome then cancelReply replyingTo else replyingTo, true⟩

/-- Message-feed subscription handle (`activeForumUnsubscribe` together with
the context its query filters on).  `sid` identifies the handle so that
cancellation can be tracked. -/
structure MsgSub where
  sid : Nat
  context : String
deriving DecidableEq, Repr

/-- Reaction-feed subscription handle (`reactionsUnsubscribe` together with
the ids its `in` filter watches). -/
structure ReactSub where
  sid : Nat
  watched : List String
deriving DecidableEq, Repr

/-- Process-local subscription state of `forum.js`: the two handle slots, a
fresh-id counter, the set of handles whose unsubscribe function has been
invoked, and `currentForumContext`. -/
structure ForumState where
  nextSid : Nat
  activeMsgSub : Option MsgSub
  activeReactSub : Option ReactSub
  cancelled : List Nat
  currentContext : String
deriving DecidableEq, Repr

/-- Embedding of `initForum(context, …)`: unsubscribe the previous message
listener if any, remember the context, and install a fresh message listener
filtered by `context == given value`.  The reaction handle slot is not
touched. -/
def initForum (ctx : String) (st : ForumState) : ForumState :=
  let cancelled1 :=
    match st.activeMsgSub with
    | some s => s.sid :: st.cancelled
    | none => st.cancelled
  { nextSid := st.nextSid + 1
    activeMsgSub := some ⟨st.nextSid, ctx⟩
    activeReactSub := st.activeReactSub
    cancelled := cancelled1
    currentContext := ctx }

/-- Embedding of `loadReactionsRealtime(messageIds, …)`: unsubscribe the
previous reaction listener if any, and (for a non-empty id list) install a
fresh listener watching the first 10 ids.  On an empty id list the function
returns early, leaving the stale handle in the slot. -/
def loadReactionsRealtime (messageIds : List String) (st : ForumState) : ForumState :=
  let cancelled1 :=
    match st.activeReactSub with
    | some s => s.sid :: st.cancelled
    | none => st.cancelled
  if messageIds.isEmpty then
    { st with cancelled := cancelled1 }
  else
    { st with
      cancelled := cancelled1
      activeReactSub := some ⟨st.nextSid, watchedIds messageIds⟩
      nextSid := st.nextSid + 1 }

/-- Delivery of a message snapshot through the handle `sid`: a handle that
is no longer the active one delivers nothing.  The active handler renders
and, when the deleted-filtered message list is non-empty, re-derives the
reaction listener from its ids (`if (messageIds.length > 0)
loadReactionsRealtime(messageIds, …)`); an empty raw snapshot returns before
that point. -/
def deliverMsgSnapshot (sid : Nat) (docs : List MessageDoc) (st : ForumState) : ForumState :=
  match st.activeMsgSub with
  | none => st
  | some s =>
    if s.sid = sid then
      if docs.isEmpty then st
      else
        let messageIds := (processSnapshot docs).map (fun m => m.id)
        if messageIds.length > 0 then loadReactionsRealtime messageIds st
        else st
    else st

/-- Example profile used in concrete evaluations. -/
def exProfileAlice : UserProfile := ⟨"alice", "alice@mail", "user", 0⟩

/-- Example profile of an acting user whose resolved role is `user`. -/
def exProfileBob : UserProfile := ⟨"bob", "bob@mail", "user", 0⟩

/-- Example store for the mute operations: two ordinary users, no
moderators, no mute records. -/
def exStoreMute : ModStore := ⟨[("u_alice", exProfileAlice), ("u_bob", exProfileBob)], [], []⟩

/-- Example profile of a registered moderator. -/
def exProfileMia : UserProfile := ⟨"mia", "mia@mail", "moderator", 3⟩

/-- Example moderator-registry entry for `exProfileMia`. -/
def exModEntryMia : ModeratorEntry := ⟨"m1", "mia", DEVELOPER_UID, 5⟩

/-- Example store for `removeModerator`: one moderator with a matching
profile. -/
def exStoreMod : ModStore := ⟨[("m1", exProfileMia)], [("m1", exModEntryMia)], []⟩

/-- Example forum message document in the `global` context. -/
def exMsgDoc : MessageDoc :=
  ⟨"m1", "global", "u1", "alice", "user", "hola", 1, "alice@mail", none, false, none, none⟩

/-- Initial subscription state: no listener installed yet. -/
def exForumState0 : ForumState := ⟨0, none, none, [], "global"⟩

/-- Example forum message document in the `match_42` context. -/
def exMsgDoc2 : MessageDoc :=
  ⟨"m2", "match_42", "u1", "alice", "user", "vamos", 2, "alice@mail", none, false, none, none⟩

/-- Key lookup after an overwriting write finds the written value. -/
theorem lookup_setKey_self {α : Type} (k : String) (v : α) (l : List (String × α)) :
    (setKey k v l).lookup k = some v := by
  induction l with
  | nil => simp [setKey, List.lookup]
  | cons kv rest ih =>
    obtain ⟨k2, v2⟩ := kv
    by_cases h : k2 = k
    · simp [setKey, h, List.lookup]
    · have hb : (k == k2) = false := by
        simp [Ne.symm h]
      simp [setKey, h, List.lookup, hb, ih]

/-- C8: role resolution returns `developer` exactly for the fixed developer
id; for any other uid it returns `moderator` exactly when the registry
lookup succeeds with an existing entry; a failing lookup degrades to the
safe default `user` instead of propagating or escalating. -/
theorem getUserRole_resolution_spec (uid : String) (lookup : Except Unit Bool) :
    (getUserRole uid lookup = Role.developer ↔ uid = DEVELOPER_UID)
    ∧ (uid ≠ DEVELOPER_UID →
        (getUserRole uid lookup = Role.moderator ↔ lookup = Except.ok true))
    ∧ (uid ≠ DEVELOPER_UID → lookup = Except.error () →
        getUserRole uid lookup = Role.user) := by
  by_cases h : uid = DEVELOPER_UID
  · simp [getUserRole, h]
  · refine ⟨?_, ?_, ?_⟩
    · simp only [getUserRole, if_neg h]
      constructor
      · intro hr
        exfalso
        cases lookup with
        | ok b => cases b <;> simp_all
        | error e => simp_all
      · intro hr
        exact absurd hr h
    · intro _
      simp only [getUserRole, if_neg h]
      cases lookup with
      | ok b => cases b <;> simp
      | error e => simp
    · intro _ he
      subst he
      simp [getUserRole, h]

/-- Witness for `getUserRole_resolution_spec`: a failed registry lookup for
an ordinary uid resolves to `user`. -/
theorem getUserRole_resolution_spec_witness :
    getUserRole "u_bob" (Except.error ()) = Role.user :=
  (getUserRole_resolution_spec "u_bob" (Except.error ())).2.2 (by decide) rfl

/-- C5: the processed message sequence contains no soft-deleted message and
its timestamps are non-decreasing. -/
theorem processSnapshot_filter_sorted_spec (docs : List MessageDoc) :
    (processSnapshot docs).all (fun m => !m.deleted) = true
    ∧ List.Pairwise (fun a b : MessageDoc => a.timestamp ≤ b.timestamp) (processSnapshot docs) := by
  constructor
  · rw [List.all_eq_true]
    intro m hm
    have hmem : m ∈ docs.filter (fun d => !d.deleted) :=
      (List.mem_insertionSort tsLE).1 hm
    exact (List.mem_filter.1 hmem).2
  · exact List.sorted_insertionSort tsLE _

/-- C10: a send whose text trims to the empty string writes nothing, does
not increment the comment counter, and leaves the pending reply slot
untouched. -/
theorem sendMessage_emptyText_noop (u : AuthUser) (p : UserProfile)
    (role ctx rawText : String) (now : Nat) (rt : Option ReplyRef)
    (hu : p.username ≠ "") (ht : strTrim rawText = "") :
    sendMessage (some u) (some p) role ctx rawText now rt = ⟨none, rt, false⟩ := by
  simp [sendMessage, hu, ht]

/-- Witness for `sendMessage_emptyText_noop` on a whitespace-only input. -/
theorem sendMessage_emptyText_noop_witness :
    sendMessage (some ⟨"u1", "mail"⟩) (some exProfileAlice) "user" "global" "   " 5
      (some ⟨"m9", "bob", "hey"⟩) = ⟨none, some ⟨"m9", "bob", "hey"⟩, false⟩ :=
  sendMessage_emptyText_noop ⟨"u1", "mail"⟩ exProfileAlice "user" "global" "   " 5
    (some ⟨"m9", "bob", "hey"⟩) (by decide) (by decide)

/-- C9: on a successful send, a pending reply is copied verbatim into the
outgoing message and the slot is cleared; with no pending reply the message
carries no `replyTo`; composing with `startReply` yields the 100-character
excerpt, and `cancelReply` before a send yields a message without
`replyTo`. -/
theorem sendMessage_replyThreading_spec (u : AuthUser) (p : UserProfile)
    (role ctx rawText : String) (now : Nat)
    (hu : p.username ≠ "") (ht : strTrim rawText ≠ "") :
    (∀ r : ReplyRef,
        sendMessage (some u) (some p) role ctx rawText now (some r) =
          ⟨some ⟨ctx, u.uid, p.username, role, strTrim rawText, now, u.email,
                 some ⟨r.messageId, r.username, r.text⟩⟩, none, true⟩)
    ∧ (sendMessage (some u) (some p) role ctx rawText now none =
        ⟨some ⟨ctx, u.uid, p.username, role, strTrim rawText, now, u.email, none⟩, none, true⟩)
    ∧ (∀ mid uname body rtOld,
        sendMessage (some u) (some p) role ctx rawText now (startReply mid uname body rtOld) =
          ⟨some ⟨ctx, u.uid, p.username, role, strTrim rawText, now, u.email,
                 some ⟨mid, uname, strTake body 100⟩⟩, none, true⟩)
    ∧ (∀ rtOld,
        sendMessage (some u) (some p) role ctx rawText now (cancelReply rtOld) =
          ⟨some ⟨ctx, u.uid, p.username, role, strTrim rawText, now, u.email, none⟩,
            none, true⟩) := by
  refine ⟨?_, ?_, ?_, ?_⟩ <;> (intros; simp [sendMessage, startReply, cancelReply, hu, ht])

/-- Witness for `sendMessage_replyThreading_spec`: a concrete
`startReply` + `sendMessage` round trip. -/
theorem sendMessage_replyThreading_spec_witness :
    sendMessage (some ⟨"u1", "mail"⟩) (some exProfileAlice) "user" "global" " hola " 9
      (startReply "m1" "Bob" "hey there" none) =
      ⟨some ⟨"global", "u1", "alice", "user", "hola", 9, "mail",
             some ⟨"m1", "Bob", "hey there"⟩⟩, none, true⟩ := by
  have h := (sendMessage_replyThreading_spec ⟨"u1", "mail"⟩ exProfileAlice "user" "global"
      " hola " 9 (by decide) (by decide)).2.2.1 "m1" "Bob" "hey there" none
  rw [h]
  decide

/-- C7: `isUserMuted` returns not-muted on an absent record; on a record
whose (truthy) expiry lies in the past it returns not-muted and purges the
record; otherwise it returns the record.  Composed with `muteUser`: a fresh
mute reads as muted immediately and as not muted once the expiry timestamp
has passed. -/
theorem isUserMuted_lazyExpiry_spec (uid username : String) (now now2 d : Nat) (st : ModStore) :
    (st.muted_users.lookup uid = none → isUserMuted uid now st = (none, st))
    ∧ (∀ r : MuteRecord, st.muted_users.lookup uid = some r → r.expiresAt ≠ 0 →
        r.expiresAt < now →
        isUserMuted uid now st = (none, { st with muted_users := eraseKey uid st.muted_users }))
    ∧ (∀ r : MuteRecord, st.muted_users.lookup uid = some r → ¬r.expiresAt < now →
        isUserMuted uid now st = (some r, st))
    ∧ (∀ p : UserProfile, searchUserByUsername username st = some (uid, p) →
        uid ≠ DEVELOPER_UID →
        (muteUser username d now st).1 = true
        ∧ (isUserMuted uid now (muteUser username d now st).2).1.isSome = true
        ∧ (0 < now → now + d * 60000 < now2 →
            (isUserMuted uid now2 (muteUser username d now st).2).1 = none)) := by
  refine ⟨?_, ?_, ?_, ?_⟩
  · intro h
    simp [isUserMuted, h]
  · intro r hr h0 hlt
    simp [isUserMuted, hr, h0, hlt]
  · intro r hr hge
    simp [isUserMuted, hr, hge]
  · intro p hp hdev
    have hm : muteUser username d now st =
        (true, { st with
                 muted_users := setKey uid ⟨uid, p.username, now, now + d * 60000, d⟩ st.muted_users }) := by
      simp [muteUser, hp, hdev]
    rw [hm]
    refine ⟨rfl, ?_, ?_⟩
    · have hnl : ¬(now + d * 60000 < now) := by omega
      simp [isUserMuted, lookup_setKey_self, hnl]
    · intro hnow hlt
      have h0 : now + d * 60000 ≠ 0 := by omega
      simp [isUserMuted, lookup_setKey_self, h0, hlt]

/-- Witness for `isUserMuted_lazyExpiry_spec`: muting alice for 7 minutes at
time 100 reads muted at time 100 and unmuted at time 999999. -/
theorem isUserMuted_lazyExpiry_spec_witness :
    (muteUser "alice" 7 100 exStoreMute).1 = true
    ∧ (isUserMuted "u_alice" 100 (muteUser "alice" 7 100 exStoreMute).2).1.isSome = true
    ∧ (isUserMuted "u_alice" 999999 (muteUser "alice" 7 100 exStoreMute).2).1 = none := by
  have h := (isUserMuted_lazyExpiry_spec "u_alice" "alice" 100 999999 7 exStoreMute).2.2.2
    exProfileAlice (by decide) (by decide)
  exact ⟨h.1, h.2.1, h.2.2 (by decide) (by decide)⟩

/-- C1 counterexample: the source `muteUser` takes no acting user and
performs no role check at all.  With `u_bob` resolved to role `user` acting
through the UI, `muteUser("alice", 60)` nevertheless succeeds and writes the
MuteRecord — refuting that a `user`-role actor fails with PermissionDenied
and that nothing is written. -/
theorem muteUser_roleGate_counterexample :
    getUserRole "u_bob" (Except.ok false) = Role.user
    ∧ (muteUser "alice" 60 1000 exStoreMute).1 = true
    ∧ ((muteUser "alice" 60 1000 exStoreMute).2.muted_users.lookup "u_alice").isSome = true := by
  decide

/-- C1 amended: `muteUser(username, durationMinutes)` is gated only by
username resolution and developer protection, not by any acting-user role:
it fails (writing nothing) when the username does not resolve or resolves to
the developer, and succeeds (writing the MuteRecord keyed by the resolved
uid) in every other case, whatever the caller's role. -/
theorem muteUser_resolution_spec (username : String) (d now : Nat) (st : ModStore) :
    (searchUserByUsername username st = none → muteUser username d now st = (false, st))
    ∧ (∀ p : UserProfile, searchUserByUsername username st = some (DEVELOPER_UID, p) →
        muteUser username d now st = (false, st))
    ∧ (∀ uid p, searchUserByUsername username st = some (uid, p) → uid ≠ DEVELOPER_UID →
        muteUser username d now st =
          (true, { st with
                   muted_users := setKey uid ⟨uid, p.username, now, now + d * 60000, d⟩ st.muted_users })) := by
  refine ⟨?_, ?_, ?_⟩
  · intro h
    simp [muteUser, h]
  · intro p h
    simp [muteUser, h]
  · intro uid p h hdev
    simp [muteUser, h, hdev]

/-- Witness for `muteUser_resolution_spec` at the concrete store. -/
theorem muteUser_resolution_spec_witness :
    muteUser "alice" 60 1000 exStoreMute =
      (true, ⟨[("u_alice", exProfileAlice), ("u_bob", exProfileBob)], [],
        [("u_alice", ⟨"u_alice", "alice", 1000, 3601000, 60⟩)]⟩) := by
  have h := (muteUser_resolution_spec "alice" 60 1000 exStoreMute).2.2 "u_alice"
    exProfileAlice (by decide) (by decide)
  rw [h]
  decide

/-- C3 counterexample: `removeModerator` updates the profile role first and
deletes the registry entry second.  When the profile write succeeds and the
registry delete then fails, an error is surfaced but the registry entry is
still present while the profile role is already `user` — the two documents
are left inconsistent, refuting "both steps succeed or the registry entry is
not left orphaned from the profile role field". -/
theorem removeModerator_orphan_counterexample :
    ((removeModerator "m1" exStoreMod true true false).1.isSome = true)
    ∧ (((removeModerator "m1" exStoreMod true true false).2.moderators.lookup "m1").isSome = true)
    ∧ (((removeModerator "m1" exStoreMod true true false).2.user_profiles.lookup "m1").map
        (fun p => p.role) = some "user") := by
  decide

/-- C3 amended: `removeModerator` performs the profile role reset first,
then the registry delete.  With both writes succeeding, the entry is deleted
and the role is `user`; a failure of the read or of the profile write
surfaces an error and leaves the store unchanged; a failure of the registry
delete after a successful profile write surfaces an error but leaves the
registry entry present alongside a profile role already reset to `user`. -/
theorem removeModerator_sequencing_spec (uid : String) (st : ModStore) (p : UserProfile)
    (hp : st.user_profiles.lookup uid = some p) :
    (removeModerator uid st true true true =
      (none, { st with
        user_profiles := setKey uid { p with role := "user" } st.user_profiles,
        moderators := eraseKey uid st.moderators }))
    ∧ (∀ profileOk deleteOk, removeModerator uid st false profileOk deleteOk =
        (some "Error al quitar moderador", st))
    ∧ (∀ deleteOk, removeModerator uid st true false deleteOk =
        (some "Error al quitar moderador", st))
    ∧ (removeModerator uid st true true false =
        (some "Error al quitar moderador",
          { st with user_profiles := setKey uid { p with role := "user" } st.user_profiles })) := by
  refine ⟨?_, ?_, ?_, ?_⟩ <;> (intros; simp [removeModerator, hp])

/-- Witness for `removeModerator_sequencing_spec`: the all-successful run on
the concrete store. -/
theorem removeModerator_sequencing_spec_witness :
    removeModerator "m1" exStoreMod true true true =
      (none, ⟨[("m1", ⟨"mia", "mia@mail", "user", 3⟩)], [], []⟩) := by
  have h := (removeModerator_sequencing_spec "m1" exStoreMod exProfileMia (by decide)).1
  rw [h]
  decide

/-- Aggregation over a snapshot containing no document for `mid` leaves any
accumulator unchanged. -/
theorem foldl_applyReactionDoc_no_match (viewer : Option String) (mid : String)
    (a : ReactionAgg) (snapshot : List Reaction)
    (h : ∀ r ∈ snapshot, r.messageId ≠ mid) :
    snapshot.foldl (applyReactionDoc viewer mid) a = a := by
  induction snapshot generalizing a with
  | nil => rfl
  | cons r rest ih =>
    have hr : r.messageId ≠ mid := h r (List.mem_cons_self r rest)
    have hstep : applyReactionDoc viewer mid a r = a := by
      simp [applyReactionDoc, hr]
    rw [List.foldl_cons, hstep]
    exact ih a (fun x hx => h x (List.mem_cons_of_mem r hx))

/-- C6: the reaction channel watches exactly the first 10 message ids of the
current set (with more than 10 ids present, the watched list has length 10
and is a strict truncation), and for any message id outside the watched
prefix the aggregate derived from the delivered reactions stays at the
default — reactions beyond the first 10 ids are not reflected. -/
theorem reactionWatch_truncation_spec (ids : List String) (reactions : List Reaction)
    (viewer : Option String) :
    watchedIds ids = ids.take 10
    ∧ (10 < ids.length → (watchedIds ids).length = 10 ∧ watchedIds ids ≠ ids)
    ∧ (∀ mid, mid ∉ watchedIds ids →
        aggFor viewer (deliveredReactions reactions ids) mid = emptyAgg) := by
  refine ⟨rfl, ?_, ?_⟩
  · intro h
    refine ⟨?_, ?_⟩
    · simp [watchedIds]
      omega
    · intro he
      have hlen := congrArg List.length he
      simp [watchedIds] at hlen
      omega
  · intro mid hmid
    apply foldl_applyReactionDoc_no_match
    intro r hr heq
    have hc := (List.mem_filter.1 hr).2
    rw [heq] at hc
    exact hmid (by simpa using hc)

/-- Witness for `reactionWatch_truncation_spec`: with 11 message ids, a
reaction on the 11th id produces the default (empty) aggregate for it. -/
theorem reactionWatch_truncation_spec_witness :
    aggFor none (deliveredReactions [⟨"k", "u1", "like", 3⟩]
      ["a1", "a2", "a3", "a4", "a5", "a6", "a7", "a8", "a9", "a10", "k"]) "k" = emptyAgg := by
  have h := (reactionWatch_truncation_spec
      ["a1", "a2", "a3", "a4", "a5", "a6", "a7", "a8", "a9", "a10", "k"]
      [⟨"k", "u1", "like", 3⟩] none).2.2
  exact h "k" (by decide)

/-- Unfolding of the pair query on a cons cell. -/
theorem pairDocs_cons (m u : String) (x : Reaction) (xs : List Reaction) :
    pairDocs m u (x :: xs) =
      if x.messageId == m && x.userId == u then x :: pairDocs m u xs
      else pairDocs m u xs := by
  simp [pairDocs, List.filter_cons]

/-- Action of a toggle on the documents of its own `(messageId, userId)`
pair: an empty result set gains the fresh document, otherwise the first
matching document is deleted (same type) or retyped in place (other type)
and the remaining matches are untouched. -/
theorem pairDocs_toggle_eq (mid uid ty : String) (now : Nat) (docs : List Reaction) :
    pairDocs mid uid (toggleReactionDocs mid uid ty now docs) =
      match pairDocs mid uid docs with
      | [] => [⟨mid, uid, ty, now⟩]
      | r :: rest => if r.type = ty then rest else { r with type := ty } :: rest := by
  induction docs with
  | nil => simp [toggleReactionDocs, pairDocs_cons, pairDocs]
  | cons r rest ih =>
    by_cases hr : r.messageId = mid ∧ r.userId = uid
    · have hb : (r.messageId == mid && r.userId == uid) = true := by
        simpa [Bool.and_eq_true, beq_iff_eq] using hr
      have ht : toggleReactionDocs mid uid ty now (r :: rest) =
          if r.type = ty then rest else { r with type := ty } :: rest := by
        simp only [toggleReactionDocs]
        rw [if_pos hr]
      rw [ht, pairDocs_cons, hb]
      by_cases hty : r.type = ty
      · simp [hty]
      · simp [hty, pairDocs_cons, hb]
    · have hb : (r.messageId == mid && r.userId == uid) = false := by
        simpa [Bool.and_eq_true, beq_iff_eq] using hr
      have ht : toggleReactionDocs mid uid ty now (r :: rest) =
          r :: toggleReactionDocs mid uid ty now rest := by
        simp only [toggleReactionDocs]
        rw [if_neg hr]
      rw [ht, pairDocs_cons, hb, pairDocs_cons, hb]
      simpa using ih

/-- A toggle of one `(messageId, userId)` pair leaves the documents of every
other pair unchanged. -/
theorem pairDocs_toggle_ne (mid uid m u ty : String) (now : Nat) (docs : List Reaction)
    (h : ¬(mid = m ∧ uid = u)) :
    pairDocs m u (toggleReactionDocs mid uid ty now docs) = pairDocs m u docs := by
  have hnew : ((mid == m) && (uid == u)) = false := by
    simpa [Bool.and_eq_true, beq_iff_eq] using h
  induction docs with
  | nil =>
    simp [toggleReactionDocs, pairDocs_cons, pairDocs, hnew]
  | cons r rest ih =>
    by_cases hr : r.messageId = mid ∧ r.userId = uid
    · have hrm : (r.messageId == m && r.userId == u) = false := by
        rw [hr.1, hr.2]
        exact hnew
      have ht : toggleReactionDocs mid uid ty now (r :: rest) =
          if r.type = ty then rest else { r with type := ty } :: rest := by
        simp only [toggleReactionDocs]
        rw [if_pos hr]
      rw [ht, pairDocs_cons, hrm]
      by_cases hty : r.type = ty
      · simp [hty]
      · have hrm2 : (({ r with type := ty } : Reaction).messageId == m
            && ({ r with type := ty } : Reaction).userId == u) = false := hrm
        simp only [if_neg hty, pairDocs_cons, hrm2, Bool.false_eq_true, if_false]
    · have ht : toggleReactionDocs mid uid ty now (r :: rest) =
          r :: toggleReactionDocs mid uid ty now rest := by
        simp only [toggleReactionDocs]
        rw [if_neg hr]
      rw [ht, pairDocs_cons, pairDocs_cons]
      cases hc : (r.messageId == m && r.userId == u) <;> simp [ih]

/-- With no document of the pair present, a toggle appends the fresh
document at the end of the collection. -/
theorem toggleReactionDocs_of_no_match (mid uid ty : String) (now : Nat) (docs : List Reaction)
    (h : pairDocs mid uid docs = []) :
    toggleReactionDocs mid uid ty now docs = docs ++ [⟨mid, uid, ty, now⟩] := by
  induction docs with
  | nil => rfl
  | cons r rest ih =>
    rw [pairDocs, List.filter_cons] at h
    by_cases hb : (r.messageId == mid && r.userId == uid) = true
    · rw [if_pos hb] at h
      exact absurd h (List.cons_ne_nil r _)
    · have hprop : ¬(r.messageId = mid ∧ r.userId = uid) := by
        simpa [Bool.and_eq_true, beq_iff_eq] using hb
      rw [if_neg hb] at h
      simp only [toggleReactionDocs, if_neg hprop, List.cons_append]
      rw [ih h]

/-- One `toggleReaction` call preserves "at most one reaction document per
pair". -/
theorem pairDocs_toggleReaction_length (v : Option String) (mid ty : String) (now : Nat)
    (docs : List Reaction) (m u : String) (h : (pairDocs m u docs).length ≤ 1) :
    (pairDocs m u (toggleReaction v mid ty now docs)).length ≤ 1 := by
  cases v with
  | none => simpa [toggleReaction] using h
  | some uid =>
    simp only [toggleReaction]
    by_cases hp : mid = m ∧ uid = u
    · obtain ⟨e1, e2⟩ := hp
      subst e1
      subst e2
      rw [pairDocs_toggle_eq]
      cases hd : pairDocs mid uid docs with
      | nil => simp
      | cons r rs =>
        rw [hd] at h
        simp only [List.length_cons] at h
        have hrs : rs.length = 0 := by omega
        by_cases hty : r.type = ty <;> simp [hty, hrs]
    · rw [pairDocs_toggle_ne mid uid m u ty now docs hp]
      exact h

/-- Any interleaving of `toggleReaction` calls preserves "at most one
reaction document per pair". -/
theorem applyToggleCalls_length (calls : List (Option String × String × String × Nat))
    (docs : List Reaction) (h : ∀ m u, (pairDocs m u docs).length ≤ 1) :
    ∀ m u, (pairDocs m u (applyToggleCalls calls docs)).length ≤ 1 := by
  induction calls generalizing docs with
  | nil => simpa [applyToggleCalls] using h
  | cons c cs ih =>
    intro m u
    have hstep : applyToggleCalls (c :: cs) docs =
        applyToggleCalls cs (toggleReaction c.1 c.2.1 c.2.2.1 c.2.2.2 docs) := by
      simp [applyToggleCalls]
    rw [hstep]
    exact ih _ (fun m2 u2 => pairDocs_toggleReaction_length c.1 c.2.1 c.2.2.1 c.2.2.2
      docs m2 u2 (h m2 u2)) m u

/-- Parity of repeated same-type toggles starting from no reaction of the
pair: after `n` toggles the pair owns exactly one document (of the toggled
type) when `n` is odd and none when `n` is even. -/
theorem pairDocs_toggles_parity (mid uid ty : String) (now : Nat) (docs : List Reaction)
    (h : pairDocs mid uid docs = []) (n : Nat) :
    pairDocs mid uid (toggles mid uid ty now n docs) =
      if n % 2 = 1 then [⟨mid, uid, ty, now⟩] else [] := by
  induction n with
  | zero => simpa [toggles] using h
  | succ k ih =>
    rw [toggles, pairDocs_toggle_eq, ih]
    by_cases hk : k % 2 = 1
    · have hk2 : ¬((k + 1) % 2 = 1) := by omega
      simp [hk, hk2]
    · have hk2 : (k + 1) % 2 = 1 := by omega
      simp [hk, hk2]

/-- C4: an unauthenticated `react` is a no-op; for an authenticated viewer
the operation follows exactly the three cases (create on no existing
reaction — appended to the collection —, delete on same type, retype in
place on other type), any interleaving of `react` calls preserves at most
one reaction document per `(messageId, userId)` pair, and after `n` toggles
of the same type starting from no reaction the pair is reacted iff `n` is
odd. -/
theorem toggleReaction_cases_spec (docs : List Reaction) (mid uid ty : String) (now : Nat)
    (n : Nat) (calls : List (Option String × String × String × Nat)) :
    toggleReaction none mid ty now docs = docs
    ∧ (pairDocs mid uid docs = [] →
        toggleReaction (some uid) mid ty now docs = docs ++ [⟨mid, uid, ty, now⟩])
    ∧ (∀ r rest, pairDocs mid uid docs = r :: rest →
        pairDocs mid uid (toggleReaction (some uid) mid ty now docs) =
          if r.type = ty then rest else { r with type := ty } :: rest)
    ∧ ((∀ m u, (pairDocs m u docs).length ≤ 1) →
        ∀ m u, (pairDocs m u (applyToggleCalls calls docs)).length ≤ 1)
    ∧ (pairDocs mid uid docs = [] →
        (pairDocs mid uid (toggles mid uid ty now n docs) ≠ [] ↔ n % 2 = 1)) := by
  refine ⟨rfl, ?_, ?_, applyToggleCalls_length calls docs, ?_⟩
  · intro h
    simpa [toggleReaction] using toggleReactionDocs_of_no_match mid uid ty now docs h
  · intro r rest hr
    simp only [toggleReaction]
    rw [pairDocs_toggle_eq, hr]
  · intro h
    rw [pairDocs_toggles_parity mid uid ty now docs h n]
    by_cases hn : n % 2 = 1 <;> simp [hn]

/-- Witness for `toggleReaction_cases_spec`: starting from an empty
collection, a first like creates the document, three same-type toggles leave
the pair reacted, and two concrete calls keep the pair invariant. -/
theorem toggleReaction_cases_spec_witness :
    toggleReaction (some "u1") "m1" "like" 3 [] = [⟨"m1", "u1", "like", 3⟩]
    ∧ pairDocs "m1" "u1" (toggles "m1" "u1" "like" 3 3 []) ≠ []
    ∧ (pairDocs "m1" "u1"
        (applyToggleCalls [(some "u1", "m1", "like", 1), (some "u1", "m1", "dislike", 2)]
          [])).length ≤ 1 := by
  have h := toggleReaction_cases_spec [] "m1" "u1" "like" 3 3
    [(some "u1", "m1", "like", 1), (some "u1", "m1", "dislike", 2)]
  refine ⟨by simpa using h.2.1 rfl, (h.2.2.2.2 rfl).mpr (by decide), ?_⟩
  exact h.2.2.2.1 (fun m u => by simp [pairDocs]) "m1" "u1"

/-- C2 counterexample: run `open("global")`, deliver one global snapshot
(which opens the reaction listener, sid 1, watching the global message ids),
then run `open("match_42")`.  When the second `open` completes, the global
message subscription (sid 0) is cancelled but the reaction subscription
opened during the `global` context is still the one installed and its sid is
not in the cancelled set: `initForum` never cancels the previous reaction
listener, refuting that both prior subscriptions are cancelled once
`open(c2)` completes. -/
theorem contextSwitch_cancel_counterexample :
    ((initForum "match_42" (deliverMsgSnapshot 0 [exMsgDoc]
        (initForum "global" exForumState0))).activeReactSub = some ⟨1, ["m1"]⟩)
    ∧ ((deliverMsgSnapshot 0 [exMsgDoc]
        (initForum "global" exForumState0)).activeReactSub = some ⟨1, ["m1"]⟩)
    ∧ (1 ∉ (initForum "match_42" (deliverMsgSnapshot 0 [exMsgDoc]
        (initForum "global" exForumState0))).cancelled)
    ∧ (0 ∈ (initForum "match_42" (deliverMsgSnapshot 0 [exMsgDoc]
        (initForum "global" exForumState0))).cancelled) := by
  decide

/-- C2 amended: `open(c2)` cancels the prior message subscription and
installs a fresh one filtered on `c2`; the prior reaction subscription is
cancelled only when the first snapshot of `c2` with a non-empty filtered
message list is delivered, at which point a fresh reaction listener on the
first 10 new message ids replaces it.  After that snapshot exactly one
message and one reaction handle are installed, every subscription that was
active before the switch is cancelled, and deliveries through the old
(cancelled) message handle are discarded. -/
theorem contextSwitch_handoff_spec (st : ForumState) (c2 : String) (docs : List MessageDoc)
    (hwfm : ∀ s ∈ st.activeMsgSub, s.sid < st.nextSid)
    (hwfr : ∀ s ∈ st.activeReactSub, s.sid < st.nextSid)
    (hne : docs.isEmpty = false)
    (hfil : (processSnapshot docs).length > 0) :
    (initForum c2 st).activeMsgSub = some ⟨st.nextSid, c2⟩
    ∧ (∀ s ∈ st.activeMsgSub, s.sid ∈ (initForum c2 st).cancelled)
    ∧ (deliverMsgSnapshot st.nextSid docs (initForum c2 st)).activeMsgSub = some ⟨st.nextSid, c2⟩
    ∧ (deliverMsgSnapshot st.nextSid docs (initForum c2 st)).activeReactSub =
        some ⟨st.nextSid + 1, ((processSnapshot docs).map (fun m => m.id)).take 10⟩
    ∧ (∀ s ∈ st.activeMsgSub,
        s.sid ∈ (deliverMsgSnapshot st.nextSid docs (initForum c2 st)).cancelled)
    ∧ (∀ s ∈ st.activeReactSub,
        s.sid ∈ (deliverMsgSnapshot st.nextSid docs (initForum c2 st)).cancelled)
    ∧ (∀ s ∈ st.activeMsgSub, ∀ docs2,
        deliverMsgSnapshot s.sid docs2 (deliverMsgSnapshot st.nextSid docs (initForum c2 st)) =
          deliverMsgSnapshot st.nextSid docs (initForum c2 st)) := by
  obtain ⟨ns, ams, ars, canc, cc⟩ := st
  have hids : ((processSnapshot docs).map (fun m => m.id)).length > 0 := by
    simpa using hfil
  have hidsne : ((processSnapshot docs).map (fun m => m.id)).isEmpty = false := by
    cases hl : (processSnapshot docs).map (fun m => m.id) with
    | nil => rw [hl] at hids; simp at hids
    | cons a l => simp
  cases ams with
  | none =>
    cases ars with
    | none =>
      simp [initForum, deliverMsgSnapshot, loadReactionsRealtime, watchedIds, hne, hids, hidsne,
        hfil]
    | some sr =>
      simp [initForum, deliverMsgSnapshot, loadReactionsRealtime, watchedIds, hne, hids, hidsne,
        hfil]
  | some sm =>
    have hsm : sm.sid < ns := hwfm sm rfl
    have hnsm : ¬(ns = sm.sid) := by omega
    cases ars with
    | none =>
      simp [initForum, deliverMsgSnapshot, loadReactionsRealtime, watchedIds, hne, hids, hidsne,
        hfil, hnsm]
    | some sr =>
      simp [initForum, deliverMsgSnapshot, loadReactionsRealtime, watchedIds, hne, hids, hidsne,
        hfil, hnsm]

/-- Witness for `contextSwitch_handoff_spec`: the concrete
`open("global")` → snapshot → `open("match_42")` → snapshot run: the final
reaction listener is the fresh one on the `match_42` message ids, both
subscriptions opened under `global` (message sid 0, reaction sid 1) are
cancelled, and a late delivery through the old global message handle
changes nothing. -/
theorem contextSwitch_handoff_spec_witness :
    ((deliverMsgSnapshot 2 [exMsgDoc2] (initForum "match_42" (deliverMsgSnapshot 0 [exMsgDoc]
        (initForum "global" exForumState0)))).activeReactSub = some ⟨3, ["m2"]⟩)
    ∧ (0 ∈ (deliverMsgSnapshot 2 [exMsgDoc2] (initForum "match_42" (deliverMsgSnapshot 0 [exMsgDoc]
        (initForum "global" exForumState0)))).cancelled)
    ∧ (1 ∈ (deliverMsgSnapshot 2 [exMsgDoc2] (initForum "match_42" (deliverMsgSnapshot 0 [exMsgDoc]
        (initForum "global" exForumState0)))).cancelled)
    ∧ (deliverMsgSnapshot 0 [exMsgDoc] (deliverMsgSnapshot 2 [exMsgDoc2] (initForum "match_42"
        (deliverMsgSnapshot 0 [exMsgDoc] (initForum "global" exForumState0)))) =
      deliverMsgSnapshot 2 [exMsgDoc2] (initForum "match_42" (deliverMsgSnapshot 0 [exMsgDoc]
        (initForum "global" exForumState0)))) := by
  have h := contextSwitch_handoff_spec
    (deliverMsgSnapshot 0 [exMsgDoc] (initForum "global" exForumState0)) "match_42" [exMsgDoc2]
    (by decide) (by decide) (by decide) (by decide)
  have e : (deliverMsgSnapshot 0 [exMsgDoc] (initForum "global" exForumState0)).nextSid = 2 := by
    decide
  rw [e] at h
  refine ⟨?_, ?_, ?_, ?_⟩
  · exact (h.2.2.2.1).trans (by decide)
  · exact h.2.2.2.2.1 ⟨0, "global"⟩ (by decide)
  · exact h.2.2.2.2.2.1 ⟨1, ["m1"]⟩ (by decide)
  · exact h.2.2.2.2.2.2 ⟨0, "global"⟩ (by decide) [exMsgDoc]

end RealFutbol
